import Mathlib

/-!
Shallow embedding of the tracking web application source (app.py) and
verification of the frozen specification claims.

The JSON payloads handled by the application are modelled as the inductive
type `Json` below (mappings keep their entry order, as Python dictionaries
do).  Python strings are modelled as Lean strings and the string helpers
(`strip`, `lower`, regular-expression character classes) are translated to
explicit character-list operations.  Floating point scalars are outside the
model; all claims quantify over payloads built from the listed constructors.
-/

set_option maxHeartbeats 1000000

/-- JSON tree as decoded from an API response body.  Matches the shapes the
source code inspects with isinstance: dict, list, str, int, bool, None. -/
inductive Json where
  | str (s : String)
  | int (n : Int)
  | bool (b : Bool)
  | null
  | arr (items : List Json)
  | obj (entries : List (String × Json))
deriving Repr

/-- Python whitespace characters stripped by str.strip and matched by the
regular-expression class backslash-s (ASCII range). -/
def isPyWhitespace (c : Char) : Bool :=
  c == ' ' || c == '\t' || c == '\n' || c == '\r' ||
    c == Char.ofNat 11 || c == Char.ofNat 12

/-- Translation of Python str.strip: remove leading and trailing whitespace. -/
def pyStrip (s : String) : String :=
  String.mk (((s.data.dropWhile isPyWhitespace).reverse.dropWhile
    isPyWhitespace).reverse)

/-- Translation of Python str.startswith for a single candidate. -/
def strStartsWith (s p : String) : Bool :=
  p.data.isPrefixOf s.data

/-- Translation of Python str.lower (ASCII case folding). -/
def pyLower (s : String) : String :=
  String.mk (s.data.map Char.toLower)

/-- Source `_normalise_key`: lowercase the key and keep only characters in
the class a-z0-9. -/
def normaliseKey (key : String) : String :=
  String.mk ((key.data.map Char.toLower).filter fun c => c.isLower || c.isDigit)

/-- Character class of the base64 alphabet used by `_coerce_data_uri`. -/
def isBase64Char (c : Char) : Bool :=
  c.isUpper || c.isLower || c.isDigit || c == '+' || c == '/' || c == '='

/-- Removal of all whitespace performed by `_coerce_data_uri` before the
base64 heuristic. -/
def compactWhitespace (value : String) : String :=
  String.mk (value.data.filter fun c => !isPyWhitespace c)

/-- Source `_coerce_data_uri`: return the value unchanged when it already is
a data URI, otherwise wrap a long base64-looking string as a PNG data URI. -/
def coerceDataUri (value : String) : Option String :=
  if strStartsWith value "data:" then
    some value
  else
    let compact := compactWhitespace value
    if compact = "" then
      none
    else if compact.data.all isBase64Char && compact.length > 100 then
      some ("data:image/png;base64," ++ compact)
    else
      none

/-- Separator class of the regular expression underscore-or-hyphen used by
`_format_label`. -/
def isSepChar (c : Char) : Bool :=
  c == '_' || c == '-'

/-- Replace every run of underscores and hyphens by a single space, as the
substitution in `_format_label` does: a separator followed by another
separator is dropped, the last separator of a run becomes one space. -/
def collapseSeps : List Char → List Char
  | [] => []
  | [c] => if isSepChar c then [' '] else [c]
  | c :: d :: rest =>
      if isSepChar c && isSepChar d then
        collapseSeps (d :: rest)
      else if isSepChar c then
        ' ' :: collapseSeps (d :: rest)
      else
        c :: collapseSeps (d :: rest)

/-- The cleaned form of a key inside `_format_label`: separator runs become
spaces and the result is stripped. -/
def cleanLabel (label : String) : String :=
  pyStrip (String.mk (collapseSeps label.data))

/-- Source `_format_label`: clean the key and capitalize its first character
only; fall back to the original key when cleaning leaves nothing. -/
def formatLabel (label : String) : String :=
  match (cleanLabel label).data with
  | [] => label
  | c :: rest => String.mk (Char.toUpper c :: rest)

/-- Membership test a key performs against a target-key set in the source
`_find_string_value`: the normalised key must belong to the set. -/
def keyHit (target_keys : List String) (key : String) (value : Json) :
    Option String :=
  match value with
  | .str s => if normaliseKey key ∈ target_keys ∧ pyStrip s ≠ "" then
      some (pyStrip s) else none
  | _ => none

/-- Source `_find_string_value`: depth-first search for the first string
value whose normalised key is in `target_keys`.  For each mapping entry the
key is tested first and the entry value is recursed into immediately
afterwards, before any later sibling entry is examined. -/
def findStringValue (target_keys : List String) : Json → Option String
  | .obj [] => none
  | .obj ((key, value) :: rest) =>
      match keyHit target_keys key value with
      | some candidate => some candidate
      | none =>
          match findStringValue target_keys value with
          | some candidate => some candidate
          | none => findStringValue target_keys (.obj rest)
  | .arr [] => none
  | .arr (item :: rest) =>
      match findStringValue target_keys item with
      | some candidate => some candidate
      | none => findStringValue target_keys (.arr rest)
  | _ => none

/-- The list of all hits of the pre-order, left-to-right, depth-first walk of
a payload, written from the wording of the specification so that the search
function can be compared against it.  Each mapping entry contributes its own
key hit first, then the hits inside its value, then the hits of the later
entries. -/
def preorderMatches (target_keys : List String) : Json → List String
  | .obj [] => []
  | .obj ((key, value) :: rest) =>
      (match keyHit target_keys key value with
        | some candidate => [candidate]
        | none => []) ++
        preorderMatches target_keys value ++
        preorderMatches target_keys (.obj rest)
  | .arr [] => []
  | .arr (item :: rest) =>
      preorderMatches target_keys item ++ preorderMatches target_keys (.arr rest)
  | _ => []

/-- Source tuple `TRACKING_NUMBER_KEYS`: the exact key names recognised by
`_extract_tracking_number`. -/
def TRACKING_NUMBER_KEYS : List String :=
  ["trackingNumber", "tracking_number", "trackingCode", "tracking_code",
    "tracking", "consignmentNumber", "consignment_number", "trackingId",
    "tracking_id"]

/-- Membership test a key performs in `_extract_tracking_number`: the key is
compared verbatim against `TRACKING_NUMBER_KEYS`, without normalisation. -/
def exactKeyHit (key : String) (value : Json) : Option String :=
  match value with
  | .str s => if key ∈ TRACKING_NUMBER_KEYS ∧ pyStrip s ≠ "" then
      some (pyStrip s) else none
  | _ => none

/-- Source `_extract_tracking_number`: like the generic search but with the
exact-match key test. -/
def extractTrackingNumber : Json → Option String
  | .obj [] => none
  | .obj ((key, value) :: rest) =>
      match exactKeyHit key value with
      | some candidate => some candidate
      | none =>
          match extractTrackingNumber value with
          | some candidate => some candidate
          | none => extractTrackingNumber (.obj rest)
  | .arr [] => none
  | .arr (item :: rest) =>
      match extractTrackingNumber item with
      | some candidate => some candidate
      | none => extractTrackingNumber (.arr rest)
  | _ => none


/-- Normalised target keys of the first signature search of the builder. -/
def signatureUrlKeys : List String :=
  ["signatureurl", "signatureimageurl", "signaturelink", "signaturedownloadurl"]

/-- Normalised target keys of the fallback inline-image search. -/
def signatureImageKeys : List String :=
  ["signatureimage", "signature", "signaturedata", "signaturepayload",
    "proofimage"]

/-- Normalised target keys of the signer search. -/
def signedByKeys : List String :=
  ["signedby", "signatory", "recipient", "recipientname", "receiver",
    "receivername"]

/-- Normalised target keys of the timestamp search. -/
def signedAtKeys : List String :=
  ["signedat", "completedat", "completedtime", "timestamp", "deliveredat",
    "deliveredon", "datetime"]

/-- Normalised target keys of the status search. -/
def statusKeys : List String :=
  ["status", "podstatus", "deliverystatus"]

/-- The seven normalised keys skipped by the extra-details loop of the
builder. -/
def detailSkipKeys : List String :=
  ["signatureurl", "signatureimage", "signature", "signaturedata",
    "signaturepayload", "proofimage", "signaturelink"]

/-- URL test of the builder: the lowercased value must start with the http
or https scheme. -/
def isHttpUrl (s : String) : Bool :=
  strStartsWith (pyLower s) "http://" || strStartsWith (pyLower s) "https://"

/-- Python truthiness of an optional string: None and the empty string are
falsy. -/
def optStrFalsy : Option String → Bool
  | none => true
  | some s => s == ""

/-- Signature part of `_build_proof_of_delivery_context`: the pair of the
signature URL and the inline signature image derived from the pod body. -/
def assembleSignature (pod_body : Json) : Option String × Option String :=
  match findStringValue signatureUrlKeys pod_body with
  | some found =>
      if isHttpUrl found then (some found, none)
      else
        match coerceDataUri found with
        | some image => (none, some image)
        | none =>
            match findStringValue signatureImageKeys pod_body with
            | some candidate =>
                (none, some ((coerceDataUri candidate).getD candidate))
            | none => (none, none)
  | none =>
      match findStringValue signatureImageKeys pod_body with
      | some candidate =>
          (none, some ((coerceDataUri candidate).getD candidate))
      | none => (none, none)

/-- The fixed leading detail pairs of the builder: signer, timestamp and
status, each appended only when found. -/
def fixedDetailPairs (pod_body : Json) : List (String × String) :=
  (match findStringValue signedByKeys pod_body with
    | some v => [("Signed by", v)]
    | none => []) ++
  (match findStringValue signedAtKeys pod_body with
    | some v => [("Signed at", v)]
    | none => []) ++
  (match findStringValue statusKeys pod_body with
    | some v => [("Status", v)]
    | none => [])

/-- One optional fixed detail pair: the labelled singleton when the search
found a value, nothing otherwise. -/
def optPair (label : String) : Option String → List (String × String)
  | some v => [(label, v)]
  | none => []

/-- Python str() applied to the scalar values the extra-details loop keeps:
strings, integers and booleans (a Python bool is an instance of int).
Floating point scalars are outside the model. -/
def scalarString : Json → Option String
  | .str s => some s
  | .int n => some (toString n)
  | .bool b => some (if b then "True" else "False")
  | _ => none

/-- Extra-details loop of the builder over the top-level entries of the pod
body.  A formatted label already recorded in `seen` is skipped, and a newly
appended label is recorded. -/
def extraDetails (entries : List (String × Json)) (seen : List String) :
    List (String × String) :=
  match entries with
  | [] => []
  | (key, value) :: rest =>
      if normaliseKey key ∈ detailSkipKeys then
        extraDetails rest seen
      else
        match scalarString value with
        | some s =>
            if formatLabel key ∈ seen then
              extraDetails rest seen
            else
              (formatLabel key, s) :: extraDetails rest (formatLabel key :: seen)
        | none => extraDetails rest seen

/-- Choice of the body the builder works on: the nested mapping under the
key "pod" when present, the top-level mapping otherwise. -/
def podBodyOf (entries : List (String × Json)) : List (String × Json) :=
  match List.lookup "pod" entries with
  | some (.obj inner) => inner
  | _ => entries

/-- View assembled by `_build_proof_of_delivery_context`. -/
structure PodView where
  signature_url : Option String
  signature_image : Option String
  details : List (String × String)
  raw : Json

/-- Source `_build_proof_of_delivery_context`: fails on a non-mapping root,
assembles signature, fixed details and extra details, and fails when nothing
displayable was found. -/
def buildProofOfDeliveryContext (payload : Json) : Option PodView :=
  match payload with
  | .obj entries =>
      let body := Json.obj (podBodyOf entries)
      let signature := assembleSignature body
      let detail_pairs := fixedDetailPairs body ++ extraDetails (podBodyOf entries) []
      if detail_pairs.isEmpty && optStrFalsy signature.1 &&
          optStrFalsy signature.2 then
        none
      else
        some ⟨signature.1, signature.2, detail_pairs, payload⟩
  | _ => none

/-- Source constant `TRACKING_BASE_URL`. -/
def TRACKING_BASE_URL : String := "https://orderstrack.com/"

/-- Test performed by `TRACKING_PATTERN.fullmatch`: one or more characters,
each an ASCII letter or digit. -/
def trackingPatternMatch (s : String) : Bool :=
  !s.data.isEmpty && s.data.all fun c => c.isAlpha || c.isDigit

/-- Outcome of the single outbound HTTP request a gateway operation makes.
The transport layer itself is external to the program, so it is abstracted
as a parameter: either the request raised a transport exception with some
textual detail, or a response arrived with a status code, a body, and the
decoded JSON body when the body parses as JSON. -/
inductive HttpOutcome where
  | transportError (detail : String)
  | response (status : Nat) (body : String) (json : Option Json)

/-- Predicate behind response.ok of the HTTP library used by the source: a
status code strictly below 400. -/
def responseOk (status : Nat) : Bool :=
  status < 400

/-- Configuration message of the widget call for a missing API key. -/
def apiKeyMissingMessage : String :=
  "Tracking by reference is not configured."

/-- Configuration message of the widget call for a missing base URL. -/
def baseUrlMissingMessage : String :=
  "Tracking by reference is not configured correctly. Please set the " ++
    "Maxoptra base URL."

/-- Transport-failure message of the widget call, with the technical detail
of the exception appended. -/
def transportErrorMessage (detail : String) : String :=
  "Unable to contact the tracking service. Please try again later. " ++
    "(Technical detail: " ++ detail ++ ")"

/-- Message of the widget call for HTTP 404. -/
def notFoundMessage : String :=
  "No delivery was found for that reference."

/-- Message of the widget call for HTTP 401 and 403. -/
def rejectedMessage (status : Nat) : String :=
  "The tracking service rejected the request (HTTP " ++ toString status ++
    "). This can happen if the API key is invalid, the Maxoptra account " ++
    "URL is incorrect, or network access to Maxoptra is blocked. " ++
    "Please contact support."

/-- Message of the widget call for HTTP statuses of 500 and above. -/
def temporarilyUnavailableMessage : String :=
  "The tracking service is temporarily unavailable. Please try again later."

/-- Message of the widget call for any other non-ok HTTP status. -/
def unexpectedResponseMessage : String :=
  "Unexpected response from the tracking service."

/-- Message of the widget call for a body that does not parse as JSON. -/
def invalidResponseMessage : String :=
  "Received an invalid response from the tracking service."

/-- Message of the widget call when no tracking number is found in the
decoded payload. -/
def noTrackingNumberMessage : String :=
  "The tracking service did not return a tracking number for that reference."

/-- Source `_fetch_tracking_number_from_reference`.  The process-wide
configuration (API key and base URL) and the outcome of the single outbound
request are passed as parameters; the configuration checks run before the
request, so their results do not inspect the outcome. -/
def fetchTrackingNumberFromReference (apiKey baseUrl : String)
    (outcome : HttpOutcome) : Option String × Option String :=
  if apiKey = "" then
    (none, some apiKeyMissingMessage)
  else if baseUrl = "" then
    (none, some baseUrlMissingMessage)
  else
    match outcome with
    | .transportError detail => (none, some (transportErrorMessage detail))
    | .response status _ json =>
        if status == 404 then
          (none, some notFoundMessage)
        else if status == 401 || status == 403 then
          (none, some (rejectedMessage status))
        else if status ≥ 500 then
          (none, some temporarilyUnavailableMessage)
        else if !responseOk status then
          (none, some unexpectedResponseMessage)
        else
          match json with
          | none => (none, some invalidResponseMessage)
          | some payload =>
              match extractTrackingNumber payload with
              | some tn =>
                  if tn = "" then (none, some noTrackingNumberMessage)
                  else (some tn, none)
              | none => (none, some noTrackingNumberMessage)

/-- The two gateway operations the orchestrator `_build_context` calls,
abstracted as functions from the order reference to the pair the source
functions return: a result and an error message. -/
structure Gateway where
  resolveReference : String → Option String × Option String
  fetchProofOfDelivery : String → Option PodView × Option String

/-- One outbound gateway invocation recorded by the instrumented
orchestrator. -/
inductive GatewayCall where
  | resolveCall (order_reference : String)
  | podCall (order_reference : String)
deriving DecidableEq, Repr

/-- Template context assembled by `_build_context`. -/
structure ViewModel where
  tracking_number : String
  order_reference : String
  tracking_url : Option String
  error_message : Option String
  reference_error_message : Option String
  resolved_tracking_number : Option String
  proof_of_delivery : Option PodView
  proof_of_delivery_error : Option String

/-- Format-error message of the orchestrator. -/
def formatErrorMessage : String :=
  "Tracking numbers may only contain letters and numbers. Please try again."

/-- Empty-submission message of the orchestrator. -/
def emptySubmissionMessage : String :=
  "Please enter a tracking number or order reference."

/-- Message of the orchestrator when a resolved tracking number fails the
format validation. -/
def invalidRetrievedMessage : String :=
  "The retrieved tracking number appears to be invalid. Please contact support."

/-- Source `_build_context`, instrumented with the ordered list of gateway
invocations it performs.  The two raw form fields are stripped; an attempted
submission with a tracking number validates it and fetches proof of delivery
when a reference is also present; an attempted submission with only a
reference resolves it (discarding a resolved number that fails validation)
and always fetches proof of delivery; an empty attempted submission yields
the empty-submission message. -/
def buildContext (g : Gateway) (raw_tracking_number raw_order_reference :
    Option String) (submission_attempted : Bool) :
    ViewModel × List GatewayCall :=
  let tracking_number := pyStrip (raw_tracking_number.getD "")
  let order_reference := pyStrip (raw_order_reference.getD "")
  if submission_attempted then
    if tracking_number ≠ "" then
      let tracking_url := if trackingPatternMatch tracking_number then
        some (TRACKING_BASE_URL ++ tracking_number) else none
      let error_message := if trackingPatternMatch tracking_number then
        none else some formatErrorMessage
      if order_reference ≠ "" then
        let pod := g.fetchProofOfDelivery order_reference
        (⟨tracking_number, order_reference, tracking_url, error_message,
          none, none, pod.1, pod.2⟩, [.podCall order_reference])
      else
        (⟨tracking_number, order_reference, tracking_url, error_message,
          none, none, none, none⟩, [])
    else if order_reference ≠ "" then
      let resolved := g.resolveReference order_reference
      let pod := g.fetchProofOfDelivery order_reference
      match resolved.1 with
      | some t =>
          if t ≠ "" ∧ trackingPatternMatch t then
            (⟨t, order_reference, some (TRACKING_BASE_URL ++ t), none,
              resolved.2, some t, pod.1, pod.2⟩,
              [.resolveCall order_reference, .podCall order_reference])
          else if t ≠ "" then
            (⟨"", order_reference, none, none, some invalidRetrievedMessage,
              none, pod.1, pod.2⟩,
              [.resolveCall order_reference, .podCall order_reference])
          else
            (⟨"", order_reference, none, none, resolved.2, some t, pod.1,
              pod.2⟩,
              [.resolveCall order_reference, .podCall order_reference])
      | none =>
          (⟨"", order_reference, none, none, resolved.2, none, pod.1, pod.2⟩,
            [.resolveCall order_reference, .podCall order_reference])
    else
      (⟨tracking_number, order_reference, none, some emptySubmissionMessage,
        none, none, none, none⟩, [])
  else
    (⟨tracking_number, order_reference, none, none, none, none, none, none⟩,
      [])

/-- Selector for the proof-of-delivery invocations in a recorded call
trace. -/
def isPodCall : GatewayCall → Bool
  | .podCall _ => true
  | .resolveCall _ => false

/-- A gateway whose two operations return nothing, used to evaluate the
orchestrator on concrete submissions. -/
def nullGateway : Gateway :=
  ⟨fun _ => (none, none), fun _ => (none, none)⟩

/-- A gateway that resolves every reference to a tracking number that fails
the format validation. -/
def badResolveGateway : Gateway :=
  ⟨fun _ => (some "bad!number", none), fun _ => (none, none)⟩

theorem keyHit_ne_empty (target_keys : List String) (key : String)
    (value : Json) (candidate : String)
    (h : keyHit target_keys key value = some candidate) : candidate ≠ "" := by
  cases value <;> simp [keyHit] at h
  obtain ⟨⟨-, hne⟩, rfl⟩ := h
  exact hne

theorem findStringValue_ne_empty (target_keys : List String) (p : Json)
    (s : String) (h : findStringValue target_keys p = some s) : s ≠ "" := by
  induction p using findStringValue.induct target_keys <;>
    simp_all [findStringValue]
  exact keyHit_ne_empty _ _ _ _ (by assumption)

theorem exactKeyHit_ne_empty (key : String) (value : Json) (candidate : String)
    (h : exactKeyHit key value = some candidate) : candidate ≠ "" := by
  cases value <;> simp [exactKeyHit] at h
  obtain ⟨⟨-, hne⟩, rfl⟩ := h
  exact hne

theorem extractTrackingNumber_ne_empty (p : Json) (s : String)
    (h : extractTrackingNumber p = some s) : s ≠ "" := by
  induction p using extractTrackingNumber.induct <;>
    simp_all [extractTrackingNumber]
  exact exactKeyHit_ne_empty _ _ _ (by assumption)

theorem coerceDataUri_ne_empty (v u : String) (h : coerceDataUri v = some u) :
    u ≠ "" := by
  unfold coerceDataUri at h
  split at h
  · rename_i h1
    obtain rfl : v = u := by simpa using h
    intro hh
    subst hh
    simp [strStartsWith, List.isPrefixOf] at h1
  · simp only at h
    split at h
    · simp at h
    · split at h
      · obtain rfl : ("data:image/png;base64," ++ compactWhitespace v) = u := by
          simpa using h
        intro hh
        simp [String.ext_iff] at hh
      · simp at h

theorem assembleSignature_fst_ne_empty (b : Json) (u : String)
    (h : (assembleSignature b).1 = some u) : u ≠ "" := by
  unfold assembleSignature at h
  split at h
  · split at h
    · simp at h
      subst h
      exact findStringValue_ne_empty _ _ _ (by assumption)
    · split at h <;> [skip; split at h] <;> simp at h
  · split at h <;> simp at h

theorem assembleSignature_snd_ne_empty (b : Json) (u : String)
    (h : (assembleSignature b).2 = some u) : u ≠ "" := by
  have hgetD : ∀ (c : String), findStringValue signatureImageKeys b = some c →
      (coerceDataUri c).getD c ≠ "" := by
    intro c hc
    cases hco : coerceDataUri c with
    | none => simpa using findStringValue_ne_empty _ _ _ hc
    | some x => simpa using coerceDataUri_ne_empty _ _ hco
  unfold assembleSignature at h
  split at h
  · split at h
    · simp at h
    · split at h
      · simp at h
        subst h
        exact coerceDataUri_ne_empty _ _ (by assumption)
      · split at h
        · simp at h
          subst h
          exact hgetD _ (by assumption)
        · simp at h
  · split at h
    · simp at h
      subst h
      exact hgetD _ (by assumption)
    · simp at h

theorem optStrFalsy_iff_none (o : Option String)
    (hne : ∀ u, o = some u → u ≠ "") : optStrFalsy o = true ↔ o = none := by
  cases o with
  | none => simp [optStrFalsy]
  | some s => simp [optStrFalsy, hne s rfl]

theorem extraDetails_labels_nodup (entries : List (String × Json))
    (seen : List String) :
    ((extraDetails entries seen).map Prod.fst).Nodup ∧
    ∀ l ∈ (extraDetails entries seen).map Prod.fst, l ∉ seen := by
  induction entries generalizing seen with
  | nil => simp [extraDetails]
  | cons e rest ih =>
      obtain ⟨key, value⟩ := e
      by_cases hskip : normaliseKey key ∈ detailSkipKeys
      · simpa [extraDetails, hskip] using ih seen
      · cases hsc : scalarString value with
        | none => simpa [extraDetails, hskip, hsc] using ih seen
        | some s =>
            by_cases hseen : formatLabel key ∈ seen
            · simpa [extraDetails, hskip, hsc, hseen] using ih seen
            · have ihh := ih (formatLabel key :: seen)
              have hred : extraDetails ((key, value) :: rest) seen =
                  (formatLabel key, s) ::
                    extraDetails rest (formatLabel key :: seen) := by
                simp [extraDetails, hskip, hsc, hseen]
              rw [hred]
              simp only [List.map_cons, List.nodup_cons]
              refine ⟨⟨?_, ihh.1⟩, ?_⟩
              · intro hmem
                exact (ihh.2 _ hmem) (List.mem_cons_self _ _)
              · intro l hl
                rcases List.mem_cons.mp hl with rfl | hl'
                · exact hseen
                · intro hls
                  exact (ihh.2 _ hl') (List.mem_cons_of_mem _ hls)

theorem findStringValue_obj_nil (target_keys : List String) :
    findStringValue target_keys (.obj []) = none := by
  simp [findStringValue]

theorem findStringValue_single_str_miss (target_keys : List String)
    (key v : String) (h : normaliseKey key ∉ target_keys) :
    findStringValue target_keys (.obj [(key, .str v)]) = none := by
  simp [findStringValue, keyHit, h]

theorem findStringValue_single_str_hit (target_keys : List String)
    (key v : String) (h : normaliseKey key ∈ target_keys)
    (hv : pyStrip v ≠ "") :
    findStringValue target_keys (.obj [(key, .str v)]) =
      some (pyStrip v) := by
  simp [findStringValue, keyHit, h, hv]

theorem assembleSignature_of_no_find (b : Json)
    (h1 : findStringValue signatureUrlKeys b = none)
    (h2 : findStringValue signatureImageKeys b = none) :
    assembleSignature b = (none, none) := by
  unfold assembleSignature
  rw [h1, h2]

theorem fixedDetailPairs_eq_optPairs (b : Json) :
    fixedDetailPairs b =
      optPair "Signed by" (findStringValue signedByKeys b) ++
      optPair "Signed at" (findStringValue signedAtKeys b) ++
      optPair "Status" (findStringValue statusKeys b) := by
  unfold fixedDetailPairs optPair
  rcases findStringValue signedByKeys b with _ | v1 <;>
    rcases findStringValue signedAtKeys b with _ | v2 <;>
    rcases findStringValue statusKeys b with _ | v3 <;>
    rfl

theorem buildProofOfDeliveryContext_obj_some
    (entries : List (String × Json)) (url img : Option String)
    (pairs : List (String × String))
    (ha : assembleSignature (.obj (podBodyOf entries)) = (url, img))
    (hd : fixedDetailPairs (.obj (podBodyOf entries)) ++
      extraDetails (podBodyOf entries) [] = pairs)
    (hne : (pairs.isEmpty && optStrFalsy url && optStrFalsy img) = false) :
    buildProofOfDeliveryContext (.obj entries) =
      some ⟨url, img, pairs, .obj entries⟩ := by
  unfold buildProofOfDeliveryContext
  simp only
  rw [ha, hd]
  simp [hne]

theorem assemble_signedBy_payload :
    assembleSignature (.obj [("signed_by", .str "Alice")]) = (none, none) :=
  assembleSignature_of_no_find _
    (findStringValue_single_str_miss _ _ _ (by decide))
    (findStringValue_single_str_miss _ _ _ (by decide))

theorem details_signedBy_payload :
    fixedDetailPairs (.obj [("signed_by", .str "Alice")]) ++
      extraDetails [("signed_by", .str "Alice")] [] =
      [("Signed by", "Alice"), ("Signed by", "Alice")] := by
  have hf : fixedDetailPairs (.obj [("signed_by", .str "Alice")]) =
      [("Signed by", "Alice")] := by
    rw [fixedDetailPairs_eq_optPairs,
      findStringValue_single_str_hit signedByKeys "signed_by" "Alice"
        (by decide) (by decide),
      findStringValue_single_str_miss signedAtKeys "signed_by" "Alice"
        (by decide),
      findStringValue_single_str_miss statusKeys "signed_by" "Alice"
        (by decide)]
    decide
  rw [hf]
  decide

theorem buildPod_signedBy_payload :
    buildProofOfDeliveryContext (.obj [("signed_by", .str "Alice")]) =
      some ⟨none, none, [("Signed by", "Alice"), ("Signed by", "Alice")],
        .obj [("signed_by", .str "Alice")]⟩ :=
  buildProofOfDeliveryContext_obj_some _ none none _
    assemble_signedBy_payload details_signedBy_payload (by decide)

theorem assemble_note_payload :
    assembleSignature (.obj [("note", .str "hi")]) = (none, none) :=
  assembleSignature_of_no_find _
    (findStringValue_single_str_miss _ _ _ (by decide))
    (findStringValue_single_str_miss _ _ _ (by decide))

theorem details_note_payload :
    fixedDetailPairs (.obj [("note", .str "hi")]) ++
      extraDetails [("note", .str "hi")] [] = [("Note", "hi")] := by
  have hf : fixedDetailPairs (.obj [("note", .str "hi")]) = [] := by
    rw [fixedDetailPairs_eq_optPairs,
      findStringValue_single_str_miss signedByKeys "note" "hi" (by decide),
      findStringValue_single_str_miss signedAtKeys "note" "hi" (by decide),
      findStringValue_single_str_miss statusKeys "note" "hi" (by decide)]
    rfl
  rw [hf]
  decide

theorem buildPod_note_payload :
    buildProofOfDeliveryContext (.obj [("note", .str "hi")]) =
      some ⟨none, none, [("Note", "hi")], .obj [("note", .str "hi")]⟩ :=
  buildProofOfDeliveryContext_obj_some _ none none _
    assemble_note_payload details_note_payload (by decide)

theorem assemble_color_payload :
    assembleSignature (.obj [("color", .str "red")]) = (none, none) :=
  assembleSignature_of_no_find _
    (findStringValue_single_str_miss _ _ _ (by decide))
    (findStringValue_single_str_miss _ _ _ (by decide))

theorem details_color_payload :
    fixedDetailPairs (.obj [("color", .str "red")]) ++
      extraDetails [("color", .str "red")] [] = [("Color", "red")] := by
  have hf : fixedDetailPairs (.obj [("color", .str "red")]) = [] := by
    rw [fixedDetailPairs_eq_optPairs,
      findStringValue_single_str_miss signedByKeys "color" "red" (by decide),
      findStringValue_single_str_miss signedAtKeys "color" "red" (by decide),
      findStringValue_single_str_miss statusKeys "color" "red" (by decide)]
    rfl
  rw [hf]
  decide

theorem buildPod_color_payload :
    buildProofOfDeliveryContext (.obj [("color", .str "red")]) =
      some ⟨none, none, [("Color", "red")], .obj [("color", .str "red")]⟩ :=
  buildProofOfDeliveryContext_obj_some _ none none _
    assemble_color_payload details_color_payload (by decide)

theorem assemble_nil_payload : assembleSignature (.obj []) = (none, none) :=
  assembleSignature_of_no_find _ (findStringValue_obj_nil _)
    (findStringValue_obj_nil _)

theorem fixed_nil_payload : fixedDetailPairs (.obj []) = [] := by
  rw [fixedDetailPairs_eq_optPairs]
  simp only [findStringValue_obj_nil]
  rfl

/-- Claim C2, counterexample: in the payload whose first entry "a" holds a
nested mapping with key "tracking" and value "X" and whose second, shallower
sibling entry "tracking" holds "Y", the search returns the deeper "X" found
inside the earlier entry, not the shallower sibling "Y" — so a matching
sibling key at a shallower level does NOT win over a deeper match reached by
recursing into an earlier mapping entry. -/
theorem findStringValue_shallow_sibling_loses :
    findStringValue ["tracking"]
      (.obj [("a", .obj [("tracking", .str "X")]), ("tracking", .str "Y")]) =
      some "X" ∧ ("X" : String) ≠ "Y" :=
  ⟨by simp [findStringValue, keyHit, normaliseKey, pyStrip, isPyWhitespace],
    by decide⟩

/-- Claim C2 (amended): for every payload and target-key set the search
returns the head of the list of hits of the pre-order, left-to-right,
depth-first walk in which each mapping entry is tested and then immediately
descended into before any later sibling; hence earlier mapping entries win
over later ones, and a deeper match inside an earlier entry wins over a
shallower matching sibling that appears later. -/
theorem findStringValue_eq_head_preorderMatches (target_keys : List String)
    (p : Json) :
    findStringValue target_keys p = (preorderMatches target_keys p).head? := by
  induction p using findStringValue.induct target_keys <;>
    simp_all [findStringValue, preorderMatches]

/-- Claim C6: the coercion returns a value beginning with the data scheme
unchanged; otherwise it strips all whitespace and fails on an empty result,
wraps a compacted string of base64-alphabet characters longer than 100
characters as a PNG data URI, and fails in every other case. -/
theorem coerceDataUri_characterisation (v : String) :
    (strStartsWith v "data:" = true → coerceDataUri v = some v) ∧
    (strStartsWith v "data:" = false → compactWhitespace v = "" →
      coerceDataUri v = none) ∧
    (strStartsWith v "data:" = false → compactWhitespace v ≠ "" →
      ((compactWhitespace v).data.all isBase64Char &&
        (compactWhitespace v).length > 100) = true →
      coerceDataUri v =
        some ("data:image/png;base64," ++ compactWhitespace v)) ∧
    (strStartsWith v "data:" = false → compactWhitespace v ≠ "" →
      ((compactWhitespace v).data.all isBase64Char &&
        (compactWhitespace v).length > 100) = false →
      coerceDataUri v = none) := by
  refine ⟨fun h1 => ?_, fun h1 h2 => ?_, fun h1 h2 h3 => ?_, fun h1 h2 h3 => ?_⟩
  · simp [coerceDataUri, h1]
  · simp [coerceDataUri, h1, h2]
  · simp [coerceDataUri, h1, h2, h3]
  · simp [coerceDataUri, h1, h2, h3]

/-- Witness for claim C6 at the four kinds of concrete inputs. -/
theorem coerceDataUri_characterisation_witness :
    coerceDataUri "data:abc" = some "data:abc" ∧
    coerceDataUri "  " = none ∧
    coerceDataUri (String.mk (List.replicate 101 'A')) =
      some ("data:image/png;base64," ++
        compactWhitespace (String.mk (List.replicate 101 'A'))) ∧
    coerceDataUri "short" = none :=
  ⟨(coerceDataUri_characterisation "data:abc").1 (by decide),
    (coerceDataUri_characterisation "  ").2.1 (by decide) (by decide),
    (coerceDataUri_characterisation (String.mk (List.replicate 101 'A'))).2.2.1
      (by decide) (by decide) (by decide),
    (coerceDataUri_characterisation "short").2.2.2
      (by decide) (by decide) (by decide)⟩

/-- Claim C9: on success the coercion yields a string beginning with the
data scheme prefix, on which the coercion acts as the identity. -/
theorem coerceDataUri_idempotent (v u : String)
    (h : coerceDataUri v = some u) :
    strStartsWith u "data:" = true ∧ coerceDataUri u = some u := by
  unfold coerceDataUri at h
  split at h
  · rename_i h1
    obtain rfl : v = u := by simpa using h
    exact ⟨h1, by simp [coerceDataUri, h1]⟩
  · simp only at h
    split at h
    · simp at h
    · split at h
      · obtain rfl : ("data:image/png;base64," ++ compactWhitespace v) = u := by
          simpa using h
        have hpre : strStartsWith
            ("data:image/png;base64," ++ compactWhitespace v) "data:" = true :=
          rfl
        exact ⟨hpre, by simp [coerceDataUri, hpre]⟩
      · simp at h

/-- Witness for claim C9 at a concrete successful coercion. -/
theorem coerceDataUri_idempotent_witness :
    strStartsWith "data:x" "data:" = true ∧
    coerceDataUri "data:x" = some "data:x" :=
  coerceDataUri_idempotent "data:x" "data:x" (by decide)

/-- Claim C10: when cleaning a key yields the empty string the formatter
returns the original key unchanged, and a non-empty key never yields an
empty label. -/
theorem formatLabel_nonempty (label : String) :
    (cleanLabel label = "" → formatLabel label = label) ∧
    (label ≠ "" → formatLabel label ≠ "") := by
  constructor
  · intro h
    simp [formatLabel, h]
  · intro h
    unfold formatLabel
    cases hc : (cleanLabel label).data with
    | nil => exact h
    | cons c rest =>
        intro hh
        simp [String.ext_iff] at hh

/-- Witness for claim C10 at a separator-only key and at an ordinary key. -/
theorem formatLabel_nonempty_witness :
    (cleanLabel "__-_" = "" ∧ formatLabel "__-_" = "__-_") ∧
    ("a_b" ≠ "" ∧ formatLabel "a_b" ≠ "") :=
  ⟨⟨by decide, (formatLabel_nonempty "__-_").1 (by decide)⟩,
    ⟨by decide, (formatLabel_nonempty "a_b").2 (by decide)⟩⟩

/-- Claim C1, counterexample: on the payload with the single top-level entry
"signed_by" mapped to "Alice" the builder succeeds, yet its detail list
holds the label "Signed by" twice — once from the fixed signer detail and
once from the extra-details loop, which never records the fixed labels in
its seen set. -/
theorem buildProofOfDeliveryContext_duplicate_label_cex :
    (buildProofOfDeliveryContext (.obj [("signed_by", .str "Alice")])).map
        (fun v => v.details) =
      some [("Signed by", "Alice"), ("Signed by", "Alice")] ∧
    ¬ (([("Signed by", "Alice"), ("Signed by", "Alice")] :
        List (String × String)).map Prod.fst).Nodup := by
  constructor
  · rw [buildPod_signedBy_payload]
    rfl
  · decide

/-- Claim C1 (amended): the detail list of every successfully built view is
the fixed signer, timestamp and status pairs followed by the extra details,
and the extra-details loop alone never repeats a label: the first occurrence
of a formatted label among the top-level extra entries wins.  The fixed
labels are not recorded in the seen set, so an extra detail may duplicate
one of them. -/
theorem buildProofOfDeliveryContext_extra_labels_unique (p : Json)
    (v : PodView) (h : buildProofOfDeliveryContext p = some v) :
    ∃ entries, p = .obj entries ∧
      v.details = fixedDetailPairs (.obj (podBodyOf entries)) ++
        extraDetails (podBodyOf entries) [] ∧
      ((extraDetails (podBodyOf entries) []).map Prod.fst).Nodup := by
  cases p
  case obj entries =>
      refine ⟨entries, rfl, ?_, (extraDetails_labels_nodup _ _).1⟩
      unfold buildProofOfDeliveryContext at h
      simp only at h
      split at h
      · simp at h
      · injection h with h2
        subst h2
        rfl
  all_goals simp [buildProofOfDeliveryContext] at h

/-- Witness for claim C1 at a concrete payload with one extra detail. -/
theorem buildProofOfDeliveryContext_extra_labels_unique_witness :
    ∃ entries, Json.obj [("note", Json.str "hi")] = Json.obj entries ∧
      ([("Note", "hi")] : List (String × String)) =
        fixedDetailPairs (.obj (podBodyOf entries)) ++
          extraDetails (podBodyOf entries) [] ∧
      ((extraDetails (podBodyOf entries) []).map Prod.fst).Nodup :=
  buildProofOfDeliveryContext_extra_labels_unique
    (Json.obj [("note", Json.str "hi")])
    ⟨none, none, [("Note", "hi")], Json.obj [("note", Json.str "hi")]⟩
    buildPod_note_payload

/-- Claim C8: the builder returns none exactly when the payload root is not
a mapping or when the assembled view would have no signature URL, no
signature image and an empty detail list; every view it does return carries
the original raw payload. -/
theorem buildProofOfDeliveryContext_none_iff (p : Json) :
    ((∀ entries, p ≠ .obj entries) → buildProofOfDeliveryContext p = none) ∧
    (∀ entries, p = .obj entries →
      (buildProofOfDeliveryContext p = none ↔
        (assembleSignature (.obj (podBodyOf entries))).1 = none ∧
        (assembleSignature (.obj (podBodyOf entries))).2 = none ∧
        fixedDetailPairs (.obj (podBodyOf entries)) ++
          extraDetails (podBodyOf entries) [] = [])) ∧
    (∀ v, buildProofOfDeliveryContext p = some v → v.raw = p) := by
  refine ⟨?_, ?_, ?_⟩
  · intro hno
    cases p <;> first | rfl | exact absurd rfl (hno _)
  · rintro entries rfl
    have h1 := optStrFalsy_iff_none
      ((assembleSignature (.obj (podBodyOf entries))).1)
      (fun u hu => assembleSignature_fst_ne_empty _ u hu)
    have h2 := optStrFalsy_iff_none
      ((assembleSignature (.obj (podBodyOf entries))).2)
      (fun u hu => assembleSignature_snd_ne_empty _ u hu)
    unfold buildProofOfDeliveryContext
    simp only
    constructor
    · intro h
      split at h
      · rename_i hcond
        simp only [Bool.and_eq_true] at hcond
        obtain ⟨⟨hd, hu1⟩, hu2⟩ := hcond
        exact ⟨h1.mp hu1, h2.mp hu2, List.isEmpty_iff.mp hd⟩
      · simp at h
    · rintro ⟨ha, hb, hd⟩
      simp [hd, ha, hb, optStrFalsy]
  · intro v h
    cases p
    case obj entries =>
      unfold buildProofOfDeliveryContext at h
      simp only at h
      split at h
      · simp at h
      · injection h with h2
        subst h2
        rfl
    all_goals simp [buildProofOfDeliveryContext] at h

/-- Witness for claim C8 at a scalar root, at the empty mapping and at a
successfully built view. -/
theorem buildProofOfDeliveryContext_none_iff_witness :
    buildProofOfDeliveryContext (.int 3) = none ∧
    ((assembleSignature
        (.obj (podBodyOf ([] : List (String × Json))))).1 = none ∧
      (assembleSignature
        (.obj (podBodyOf ([] : List (String × Json))))).2 = none ∧
      fixedDetailPairs (.obj (podBodyOf ([] : List (String × Json)))) ++
        extraDetails (podBodyOf ([] : List (String × Json))) [] = []) ∧
    (⟨none, none, [("Color", "red")],
        Json.obj [("color", Json.str "red")]⟩ : PodView).raw =
      Json.obj [("color", Json.str "red")] :=
  have ha : assembleSignature
      (.obj (podBodyOf ([] : List (String × Json)))) = (none, none) :=
    assemble_nil_payload
  have hf : fixedDetailPairs
      (.obj (podBodyOf ([] : List (String × Json)))) = [] :=
    fixed_nil_payload
  ⟨(buildProofOfDeliveryContext_none_iff (.int 3)).1
      (by intro entries hobj; cases hobj),
    ⟨by rw [ha], by rw [ha], by rw [hf]; rfl⟩,
    (buildProofOfDeliveryContext_none_iff
        (.obj [("color", Json.str "red")])).2.2
      ⟨none, none, [("Color", "red")], Json.obj [("color", Json.str "red")]⟩
      buildPod_color_payload⟩

/-- Claim C3: whenever a submission is attempted with a non-empty trimmed
order reference, the orchestrator performs exactly one proof-of-delivery
fetch, for that reference, and attaches its result and error to the view
model — for every gateway behaviour and tracking-number input. -/
theorem buildContext_always_fetches_pod (g : Gateway)
    (raw_tracking_number raw_order_reference : Option String)
    (hor : pyStrip (raw_order_reference.getD "") ≠ "") :
    (buildContext g raw_tracking_number raw_order_reference true).2.filter
        isPodCall =
      [.podCall (pyStrip (raw_order_reference.getD ""))] ∧
    (buildContext g raw_tracking_number raw_order_reference
        true).1.proof_of_delivery =
      (g.fetchProofOfDelivery (pyStrip (raw_order_reference.getD ""))).1 ∧
    (buildContext g raw_tracking_number raw_order_reference
        true).1.proof_of_delivery_error =
      (g.fetchProofOfDelivery (pyStrip (raw_order_reference.getD ""))).2 := by
  by_cases htn : pyStrip (raw_tracking_number.getD "") = ""
  · cases hres :
        (g.resolveReference (pyStrip (raw_order_reference.getD ""))).1 with
    | none => simp [buildContext, htn, hor, hres, isPodCall]
    | some t =>
        by_cases ht : t = ""
        · simp [buildContext, htn, hor, hres, ht, isPodCall]
        · by_cases hm : trackingPatternMatch t = true
          · simp [buildContext, htn, hor, hres, ht, hm, isPodCall]
          · simp [buildContext, htn, hor, hres, ht, hm, isPodCall]
  · simp [buildContext, htn, hor, isPodCall]

/-- Witness for claim C3 at a concrete submission with both fields set. -/
theorem buildContext_always_fetches_pod_witness :
    (buildContext nullGateway (some "ABC123") (some "REF1") true).2.filter
        isPodCall = [.podCall "REF1"] ∧
    (buildContext nullGateway (some "ABC123") (some "REF1")
        true).1.proof_of_delivery =
      (nullGateway.fetchProofOfDelivery "REF1").1 ∧
    (buildContext nullGateway (some "ABC123") (some "REF1")
        true).1.proof_of_delivery_error =
      (nullGateway.fetchProofOfDelivery "REF1").2 := by
  have hp : pyStrip ((some "REF1" : Option String).getD "") = "REF1" := by
    decide
  have h := buildContext_always_fetches_pod nullGateway (some "ABC123")
    (some "REF1") (by rw [hp]; decide)
  rw [hp] at h
  exact h

/-- Claim C4, counterexample: on an attempted submission whose tracking
number is the empty string the orchestrator sets the empty-submission
message, not the format-error message the claim requires for the empty
string. -/
theorem buildContext_empty_tracking_cex :
    (buildContext nullGateway (some "") none true).1.error_message =
      some emptySubmissionMessage ∧
    emptySubmissionMessage ≠ formatErrorMessage ∧
    (buildContext nullGateway (some "") none true).1.tracking_url = none := by
  refine ⟨?_, by decide, ?_⟩ <;> rfl

/-- Claim C4 (amended): the format validation accepts exactly the non-empty
strings of only ASCII letters and digits; a submitted non-empty trimmed
tracking number that validates yields exactly the fixed prefix concatenated
with it and no format error, a non-empty one that contains any other
character yields no tracking URL and the format error, and the empty string
never reaches the validation: with an empty reference it yields the
empty-submission message and no tracking URL. -/
theorem buildContext_format_validation (g : Gateway)
    (raw_tracking_number raw_order_reference : Option String) :
    (∀ s : String, trackingPatternMatch s = true ↔
      s ≠ "" ∧ ∀ c ∈ s.data, (c.isAlpha || c.isDigit) = true) ∧
    (pyStrip (raw_tracking_number.getD "") ≠ "" →
      ((pyStrip (raw_tracking_number.getD "")).data.all fun c =>
        c.isAlpha || c.isDigit) = true →
      (buildContext g raw_tracking_number raw_order_reference
          true).1.tracking_url =
        some (TRACKING_BASE_URL ++ pyStrip (raw_tracking_number.getD "")) ∧
      (buildContext g raw_tracking_number raw_order_reference
          true).1.error_message = none) ∧
    (pyStrip (raw_tracking_number.getD "") ≠ "" →
      ((pyStrip (raw_tracking_number.getD "")).data.all fun c =>
        c.isAlpha || c.isDigit) = false →
      (buildContext g raw_tracking_number raw_order_reference
          true).1.tracking_url = none ∧
      (buildContext g raw_tracking_number raw_order_reference
          true).1.error_message = some formatErrorMessage) ∧
    (pyStrip (raw_tracking_number.getD "") = "" →
      pyStrip (raw_order_reference.getD "") = "" →
      (buildContext g raw_tracking_number raw_order_reference
          true).1.error_message = some emptySubmissionMessage ∧
      (buildContext g raw_tracking_number raw_order_reference
          true).1.tracking_url = none) := by
  have hdata : ∀ s : String, s ≠ "" ↔ s.data ≠ [] := fun s => by
    simp [String.ext_iff]
  refine ⟨?_, ?_, ?_, ?_⟩
  · intro s
    rw [trackingPatternMatch]
    simp [List.isEmpty_iff, ← hdata s, List.all_eq_true, and_comm]
  · intro htn hall
    have hm : trackingPatternMatch (pyStrip (raw_tracking_number.getD "")) =
        true := by
      rw [trackingPatternMatch]
      simp [hall, List.isEmpty_iff, ← hdata _]
      exact htn
    by_cases hor : pyStrip (raw_order_reference.getD "") = "" <;>
      constructor <;> simp [buildContext, htn, hor, hm]
  · intro htn hall
    have hm : trackingPatternMatch (pyStrip (raw_tracking_number.getD "")) =
        false := by
      rw [trackingPatternMatch]
      simp [hall]
    by_cases hor : pyStrip (raw_order_reference.getD "") = "" <;>
      constructor <;> simp [buildContext, htn, hor, hm]
  · intro htn hor
    constructor <;> simp [buildContext, htn, hor]

/-- Witness for claim C4 at a valid and at an invalid concrete tracking
number. -/
theorem buildContext_format_validation_witness :
    (trackingPatternMatch "ABC123" = true ↔
      "ABC123" ≠ "" ∧ ∀ c ∈ "ABC123".data, (c.isAlpha || c.isDigit) = true) ∧
    ((buildContext nullGateway (some "ABC123") none true).1.tracking_url =
      some (TRACKING_BASE_URL ++ "ABC123") ∧
      (buildContext nullGateway (some "ABC123") none
        true).1.error_message = none) ∧
    ((buildContext nullGateway (some "AB-123") none true).1.tracking_url =
      none ∧
      (buildContext nullGateway (some "AB-123") none true).1.error_message =
        some formatErrorMessage) := by
  have hp1 : pyStrip ((some "ABC123" : Option String).getD "") = "ABC123" := by
    decide
  have hp2 : pyStrip ((some "AB-123" : Option String).getD "") = "AB-123" := by
    decide
  refine ⟨(buildContext_format_validation nullGateway (some "ABC123")
      none).1 "ABC123", ?_, ?_⟩
  · have h := (buildContext_format_validation nullGateway (some "ABC123")
      none).2.1 (by rw [hp1]; decide) (by rw [hp1]; decide)
    rw [hp1] at h
    exact h
  · exact (buildContext_format_validation nullGateway (some "AB-123")
      none).2.2.1 (by rw [hp2]; decide) (by rw [hp2]; decide)

/-- Claim C5: in the reference-only path a resolved tracking number that
fails format validation is discarded — the resolved number is cleared, the
invalid-retrieved-number message replaces any gateway error, no tracking URL
is built and the view-model tracking number stays empty. -/
theorem buildContext_invalid_resolved_discarded (g : Gateway)
    (raw_tracking_number raw_order_reference : Option String) (t : String)
    (e : Option String)
    (htn : pyStrip (raw_tracking_number.getD "") = "")
    (hor : pyStrip (raw_order_reference.getD "") ≠ "")
    (hres : g.resolveReference (pyStrip (raw_order_reference.getD "")) =
      (some t, e))
    (ht : t ≠ "") (hm : trackingPatternMatch t = false) :
    (buildContext g raw_tracking_number raw_order_reference
        true).1.resolved_tracking_number = none ∧
    (buildContext g raw_tracking_number raw_order_reference
        true).1.reference_error_message = some invalidRetrievedMessage ∧
    (buildContext g raw_tracking_number raw_order_reference
        true).1.tracking_url = none ∧
    (buildContext g raw_tracking_number raw_order_reference
        true).1.tracking_number = "" := by
  have hres1 : (g.resolveReference (pyStrip (raw_order_reference.getD ""))).1 =
      some t := by
    rw [hres]
  simp [buildContext, htn, hor, hres1, ht, hm]

/-- Witness for claim C5 with a gateway that resolves to an invalid
tracking number. -/
theorem buildContext_invalid_resolved_discarded_witness :
    (buildContext badResolveGateway none (some "REF1")
        true).1.resolved_tracking_number = none ∧
    (buildContext badResolveGateway none (some "REF1")
        true).1.reference_error_message = some invalidRetrievedMessage ∧
    (buildContext badResolveGateway none (some "REF1")
        true).1.tracking_url = none ∧
    (buildContext badResolveGateway none (some "REF1")
        true).1.tracking_number = "" := by
  have hp : pyStrip ((some "REF1" : Option String).getD "") = "REF1" := by
    decide
  exact buildContext_invalid_resolved_discarded badResolveGateway none
    (some "REF1") "bad!number" none (by decide) (by rw [hp]; decide)
    (by rw [hp]; rfl) (by decide) (by decide)

/-- Claim C7, counterexample: a response with the non-2xx status 300 and a
body that does not parse as JSON is treated as a success status by the
response-ok test (status below 400) and therefore yields the
invalid-response message, not the unexpected-response message the claim
requires for every other non-2xx status. -/
theorem fetchTrackingNumberFromReference_redirect_cex :
    fetchTrackingNumberFromReference "k" "u" (.response 300 "" none) =
      (none, some invalidResponseMessage) ∧
    invalidResponseMessage ≠ unexpectedResponseMessage := by
  constructor
  · rfl
  · decide

/-- Claim C7 (amended): the reference resolution returns exactly one of a
tracking number or an error message; a missing API key or base URL yields
the corresponding configuration message whatever the request outcome would
be, transport failure the unable-to-contact message with the detail
appended, status 404 the no-delivery message, 401 and 403 the rejected
message, statuses of 500 and above the temporarily-unavailable message, the
remaining statuses of 400 and above the unexpected-response message;
statuses below 400 count as success: a non-JSON body yields the
invalid-response message, a JSON body without an extractable tracking
number the did-not-return message, and an extracted tracking number is
returned with no error. -/
theorem fetchTrackingNumberFromReference_outcome_map (apiKey baseUrl :
    String) :
    (apiKey = "" → ∀ o, fetchTrackingNumberFromReference apiKey baseUrl o =
      (none, some apiKeyMissingMessage)) ∧
    (apiKey ≠ "" → baseUrl = "" →
      ∀ o, fetchTrackingNumberFromReference apiKey baseUrl o =
        (none, some baseUrlMissingMessage)) ∧
    (apiKey ≠ "" → baseUrl ≠ "" →
      (∀ detail, fetchTrackingNumberFromReference apiKey baseUrl
          (.transportError detail) =
        (none, some (transportErrorMessage detail))) ∧
      (∀ body json, fetchTrackingNumberFromReference apiKey baseUrl
          (.response 404 body json) = (none, some notFoundMessage)) ∧
      (∀ status body json, status = 401 ∨ status = 403 →
        fetchTrackingNumberFromReference apiKey baseUrl
            (.response status body json) =
          (none, some (rejectedMessage status))) ∧
      (∀ status body json, 500 ≤ status →
        fetchTrackingNumberFromReference apiKey baseUrl
            (.response status body json) =
          (none, some temporarilyUnavailableMessage)) ∧
      (∀ status body json, 400 ≤ status → status < 500 → status ≠ 401 →
        status ≠ 403 → status ≠ 404 →
        fetchTrackingNumberFromReference apiKey baseUrl
            (.response status body json) =
          (none, some unexpectedResponseMessage)) ∧
      (∀ status body, status < 400 →
        fetchTrackingNumberFromReference apiKey baseUrl
            (.response status body none) =
          (none, some invalidResponseMessage)) ∧
      (∀ status body payload, status < 400 →
        extractTrackingNumber payload = none →
        fetchTrackingNumberFromReference apiKey baseUrl
            (.response status body (some payload)) =
          (none, some noTrackingNumberMessage)) ∧
      (∀ status body payload t, status < 400 →
        extractTrackingNumber payload = some t →
        fetchTrackingNumberFromReference apiKey baseUrl
            (.response status body (some payload)) = (some t, none))) ∧
    (∀ o, (∃ t, fetchTrackingNumberFromReference apiKey baseUrl o =
        (some t, none)) ∨
      (∃ m, fetchTrackingNumberFromReference apiKey baseUrl o =
        (none, some m))) := by
  refine ⟨?_, ?_, ?_, ?_⟩
  · intro hk o
    simp [fetchTrackingNumberFromReference, hk]
  · intro hk hu o
    simp [fetchTrackingNumberFromReference, hk, hu]
  · intro hk hu
    refine ⟨?_, ?_, ?_, ?_, ?_, ?_, ?_, ?_⟩
    · intro detail
      simp [fetchTrackingNumberFromReference, hk, hu]
    · intro body json
      simp [fetchTrackingNumberFromReference, hk, hu]
    · rintro status body json (rfl | rfl) <;>
        simp [fetchTrackingNumberFromReference, hk, hu]
    · intro status body json h5
      have h1 : status ≠ 404 := by omega
      have h2 : status ≠ 401 := by omega
      have h3 : status ≠ 403 := by omega
      simp [fetchTrackingNumberFromReference, hk, hu, h1, h2, h3, h5]
    · intro status body json h4 h5 hn1 hn3 hn4
      have hns : ¬ 500 ≤ status := by omega
      have hok : ¬ responseOk status = true := by
        simp [responseOk]
        omega
      simp [fetchTrackingNumberFromReference, hk, hu, hn1, hn3, hn4, hns, hok]
    · intro status body hlt
      have h1 : status ≠ 404 := by omega
      have h2 : status ≠ 401 := by omega
      have h3 : status ≠ 403 := by omega
      have hns : ¬ 500 ≤ status := by omega
      have hok : responseOk status = true := by
        simp [responseOk]
        omega
      simp [fetchTrackingNumberFromReference, hk, hu, h1, h2, h3, hns, hok]
    · intro status body payload hlt hex
      have h1 : status ≠ 404 := by omega
      have h2 : status ≠ 401 := by omega
      have h3 : status ≠ 403 := by omega
      have hns : ¬ 500 ≤ status := by omega
      have hok : responseOk status = true := by
        simp [responseOk]
        omega
      simp [fetchTrackingNumberFromReference, hk, hu, h1, h2, h3, hns, hok,
        hex]
    · intro status body payload t hlt hex
      have h1 : status ≠ 404 := by omega
      have h2 : status ≠ 401 := by omega
      have h3 : status ≠ 403 := by omega
      have hns : ¬ 500 ≤ status := by omega
      have hok : responseOk status = true := by
        simp [responseOk]
        omega
      have ht : t ≠ "" := extractTrackingNumber_ne_empty _ _ hex
      simp [fetchTrackingNumberFromReference, hk, hu, h1, h2, h3, hns, hok,
        hex, ht]
  · intro o
    unfold fetchTrackingNumberFromReference
    repeat' split
    all_goals first
      | exact Or.inl ⟨_, rfl⟩
      | exact Or.inr ⟨_, rfl⟩

/-- Witness for claim C7 at a concrete configuration and at concrete
outcomes: a transport failure, a 404 response and a successful extraction. -/
theorem fetchTrackingNumberFromReference_outcome_map_witness :
    fetchTrackingNumberFromReference "k" "u" (.transportError "boom") =
      (none, some (transportErrorMessage "boom")) ∧
    fetchTrackingNumberFromReference "k" "u" (.response 404 "" none) =
      (none, some notFoundMessage) ∧
    fetchTrackingNumberFromReference "k" "u"
        (.response 200 "" (some (.obj [("tracking", .str "TN1")]))) =
      (some "TN1", none) ∧
    fetchTrackingNumberFromReference "" "u" (.transportError "boom") =
      (none, some apiKeyMissingMessage) :=
  ⟨((fetchTrackingNumberFromReference_outcome_map "k" "u").2.2.1
      (by decide) (by decide)).1 "boom",
    ((fetchTrackingNumberFromReference_outcome_map "k" "u").2.2.1
      (by decide) (by decide)).2.1 "" none,
    ((fetchTrackingNumberFromReference_outcome_map "k" "u").2.2.1
      (by decide) (by decide)).2.2.2.2.2.2.2 200 ""
      (.obj [("tracking", .str "TN1")]) "TN1" (by decide)
      (by simp [extractTrackingNumber, exactKeyHit, TRACKING_NUMBER_KEYS,
        pyStrip, isPyWhitespace]),
    (fetchTrackingNumberFromReference_outcome_map "" "u").1 rfl
      (.transportError "boom")⟩
